import Mathlib

/-!
Verification of the procedural cinematic-video generator.

The development shallowly embeds the arithmetic and control flow of the
renderer (`src/components/CinematicCanvas.tsx`) and of the capture / shot-plan
component (`src/unnamed/part_001`, the `CinematicStudio` component) over exact
rational arithmetic.  Transcendental oscillators (`Math.sin`, `Math.cos`) are
passed in as abstract function parameters, so every definition stays
computable while the algebraic structure of the source is preserved exactly.
-/

/-- An axis-aligned rectangle handed to `ctx.fillRect`, in pixels. -/
structure RectQ where
  x : ℚ
  y : ℚ
  w : ℚ
  h : ℚ
deriving DecidableEq

/- ### Capture progress sampler (src/unnamed/part_001, lines 115-134)

The interval callback runs every 120 ms and executes
`setProgress(Math.min(100, (elapsed / totalDuration) * 100))`; after the stop
promise resolves the component executes `setProgress(100)`. -/

/-- Tick period of the progress sampler in milliseconds (`window.setInterval(..., 120)`). -/
def progressTickMs : ℚ := 120

/-- One reading of the progress sampler: `Math.min(100, (elapsed / totalDuration) * 100)`
with `elapsed = performance.now() - startTime` and `totalDuration = settings.duration * 1000`. -/
def progressSample (elapsedMs totalDurationMs : ℚ) : ℚ :=
  min 100 (elapsedMs / totalDurationMs * 100)

/-- Total capture duration in milliseconds: `settings.duration * 1000`. -/
def totalDurationMs (durationS : ℚ) : ℚ := durationS * 1000

/- ### Letterbox bars (src/components/CinematicCanvas.tsx, lines 319-344) -/

/-- The list of rectangles filled by `paintBars`, in paint order.  The source
compares `currentAspect = width / height` against `settings.aspectRatio`; each
branch computes a bar thickness and paints two symmetric bars only when that
thickness is strictly positive. -/
def paintBarsRects (width height targetAspect : ℚ) : List RectQ :=
  let currentAspect := width / height
  if currentAspect > targetAspect then
    let desiredHeight := width / targetAspect
    let barHeight := (height - desiredHeight) / 2
    if barHeight > 0 then
      [⟨0, 0, width, barHeight⟩, ⟨0, height - barHeight, width, barHeight⟩]
    else []
  else
    let desiredWidth := height * targetAspect
    let barWidth := (width - desiredWidth) / 2
    if barWidth > 0 then
      [⟨0, 0, barWidth, height⟩, ⟨width - barWidth, 0, barWidth, height⟩]
    else []

/- ### Shot planner (src/unnamed/part_001, lines 482-507)

`buildShotPlan` computes `segmentDuration = settings.duration / 3` and returns
three fixed-template entries with durations `segmentDuration * 1.1`,
`segmentDuration * 0.9`, `segmentDuration * 1.2`.  Display strings are
transliterated to plain ASCII; the claim-relevant data are the count and the
durations. -/

/-- One entry of the generated timeline. -/
structure Shot where
  title : String
  description : String
  duration : ℚ

/-- The three-entry shot plan, parametrised by the resolved mood and camera
display names that the descriptions interpolate. -/
def buildShotPlan (duration : ℚ) (moodName motionName : String) : List Shot :=
  let segmentDuration := duration / 3
  [ { title := "Plan ouverture - establishing"
      description := "Halo " ++ moodName ++ " avec mouvement " ++ motionName ++
        " qui revele progressivement les volumes."
      duration := segmentDuration * (11/10) },
    { title := "Plan median - montee en tension"
      description := "Lignes de perspective amplifiees, oscillation des couches parallaxe et intensification du flare principal."
      duration := segmentDuration * (9/10) },
    { title := "Plan final - apogee"
      description := "Pulse chromatique soutenu, grain accentue et ralentissement progressif pour preparer un cut vers le noir."
      duration := segmentDuration * (12/10) } ]

/- ### Recorder bitrate (src/unnamed/part_001, lines 87-90) -/

/-- `videoBitsPerSecond: Math.max(2_500_000, Math.round(6_000_000 * settings.bloom))`.
`Math.round` rounds half toward positive infinity, which agrees with Mathlib's
`round` on the rationals. -/
def videoBitsPerSecond (bloom : ℚ) : ℤ :=
  max 2500000 (round (6000000 * bloom))

/- ## Theorems -/

/-- Claim C1, counterexample: at elapsed 3000 ms of a 6 s capture the sampler
stores 50, which is neither inside the unit interval nor equal to
`min 1 (elapsed / totalDuration)`: the code reports a percentage, not a
fraction in [0,1]. -/
theorem progress_sample_not_unit_fraction :
    progressSample 3000 (totalDurationMs 6) = 50 ∧
    ¬ progressSample 3000 (totalDurationMs 6) ≤ 1 ∧
    progressSample 3000 (totalDurationMs 6) ≠ min 1 (3000 / totalDurationMs 6) := by
  refine ⟨?_, ?_, ?_⟩ <;>
    simp [progressSample, totalDurationMs, min_def] <;> norm_num

/-- Claim C1 (amended): the sampler runs on a fixed 120 ms tick and computes
the percentage `min(100, elapsed / totalDuration * 100) = 100 * min(1, elapsed
/ totalDuration)`; the reading lies in [0,100], is monotonically non-decreasing
in elapsed time, and equals exactly 100 at/after the stop deadline. -/
theorem progress_sample_spec (e eLater d : ℚ) (he : 0 ≤ e) (hd : 0 < d) :
    progressTickMs = 120 ∧
    progressSample e d = 100 * min 1 (e / d) ∧
    0 ≤ progressSample e d ∧
    progressSample e d ≤ 100 ∧
    (e ≤ eLater → progressSample e d ≤ progressSample eLater d) ∧
    (d ≤ e → progressSample e d = 100) := by
  refine ⟨rfl, ?_, ?_, ?_, ?_, ?_⟩
  · unfold progressSample
    rcases le_total (e / d) 1 with h | h
    · rw [min_eq_right h, min_eq_right (by nlinarith)]
      ring
    · rw [min_eq_left h, min_eq_left (by nlinarith)]
      ring
  · exact le_min (by norm_num) (by positivity)
  · exact min_le_left _ _
  · intro hee
    unfold progressSample
    refine min_le_min le_rfl ?_
    have : e / d ≤ eLater / d := by gcongr
    nlinarith
  · intro hde
    unfold progressSample
    have h1 : (1 : ℚ) ≤ e / d := (one_le_div hd).mpr hde
    rw [min_eq_left (by nlinarith)]

/-- Witness for C1's amended theorem at elapsed 3000 ms, later reading 6000 ms,
total duration 6000 ms. -/
theorem progress_sample_spec_w :
    progressSample 3000 6000 ≤ progressSample 6000 6000 ∧
    progressSample 6000 6000 = 100 := by
  have h := progress_sample_spec 3000 6000 6000 (by norm_num) (by norm_num)
  have h2 := progress_sample_spec 6000 3000 6000 (by norm_num) (by norm_num)
  exact ⟨h.2.2.2.2.1 (by norm_num), h2.2.2.2.2.2 (by norm_num)⟩

/-- Claim C2, counterexample: with a 1920x1080 native frame and target aspect
4/3 we have `nativeAspect > targetAspect`, yet `paintBars` draws nothing — the
computed top/bottom bar height `(height - width/targetAspect)/2 = -180` is not
positive, contradicting the claimed "equal, positive height" bars. -/
theorem paintBars_positive_claim_fails :
    ((1920 : ℚ) / 1080 > 4 / 3) ∧ paintBarsRects 1920 1080 (4 / 3) = [] := by
  constructor
  · norm_num
  · norm_num [paintBarsRects]

/-- Claim C2 (amended): for every frame with positive dimensions and positive
target aspect, both branches of the letterbox computation produce a
non-positive bar thickness — when `nativeAspect > targetAspect` the height
`(height - width/targetAspect)/2` is negative, otherwise the width
`(width - height*targetAspect)/2` is non-positive — so, since bars are painted
only for strictly positive thickness, `paintBars` never draws any bar. -/
theorem paintBars_never_draws (w h a : ℚ) (hw : 0 < w) (hh : 0 < h) (ha : 0 < a) :
    paintBarsRects w h a = [] := by
  unfold paintBarsRects
  by_cases hc : w / h > a
  · rw [if_pos hc]
    have h1 : a * h < w := (lt_div_iff hh).mp hc
    have h2 : h < w / a := (lt_div_iff ha).mpr (by nlinarith)
    rw [if_neg (by simp only [not_lt]; nlinarith)]
  · rw [if_neg hc]
    have h1 : w / h ≤ a := not_lt.mp hc
    have h2 : w ≤ a * h := (div_le_iff hh).mp h1
    rw [if_neg (by simp only [not_lt]; nlinarith)]

/-- Witness for C2's amended theorem at a 1280x720 frame with target aspect 16/9. -/
theorem paintBars_never_draws_w : paintBarsRects 1280 720 (16 / 9) = [] :=
  paintBars_never_draws 1280 720 (16 / 9) (by norm_num) (by norm_num) (by norm_num)

/-- Claim C3: `buildShotPlan` always returns exactly 3 entries with durations
`(duration/3) * 1.1`, `(duration/3) * 0.9`, `(duration/3) * 1.2` in that order,
whose sum is `duration * (1.1 + 0.9 + 1.2) / 3 = duration * 16/15`, which is
not the total duration for any nonzero duration. -/
theorem buildShotPlan_spec (d : ℚ) (mn cn : String) :
    (buildShotPlan d mn cn).length = 3 ∧
    (buildShotPlan d mn cn).map Shot.duration =
      [d / 3 * (11/10), d / 3 * (9/10), d / 3 * (12/10)] ∧
    ((buildShotPlan d mn cn).map Shot.duration).sum = d * (11/10 + 9/10 + 12/10) / 3 ∧
    (d ≠ 0 → ((buildShotPlan d mn cn).map Shot.duration).sum ≠ d) := by
  refine ⟨rfl, rfl, ?_, ?_⟩
  · simp [buildShotPlan]
    ring
  · intro hd hEq
    simp [buildShotPlan] at hEq
    apply hd
    linarith

/-- Witness for C3 at duration 6 s: the three durations sum to 32/5 = 6.4 ≠ 6. -/
theorem buildShotPlan_spec_w :
    ((buildShotPlan 6 "neo noir" "orbit lent").map Shot.duration).sum ≠ 6 :=
  (buildShotPlan_spec 6 "neo noir" "orbit lent").2.2.2 (by norm_num)

/-- Claim C5: the recorder bitrate is `max(2_500_000, round(6_000_000 * bloom))`
bits per second; it is never below 2 500 000, and at bloom = 0.5 it is exactly
3 000 000 (and at bloom 0 and 1 the floor and ceiling values). -/
theorem videoBitsPerSecond_spec (b : ℚ) :
    videoBitsPerSecond b = max 2500000 (round (6000000 * b)) ∧
    2500000 ≤ videoBitsPerSecond b ∧
    videoBitsPerSecond (1/2) = 3000000 ∧
    videoBitsPerSecond 0 = 2500000 ∧
    videoBitsPerSecond 1 = 6000000 := by
  refine ⟨rfl, le_max_left _ _, ?_, ?_, ?_⟩ <;>
    norm_num [videoBitsPerSecond, round_eq]

/- ### Particle field (src/components/CinematicCanvas.tsx, lines 66-74 and 275-317)

Particle generation draws five `Math.random()` values per particle; the random
stream is modelled as a function from (particle index, draw index) to ℚ.  The
oscillators `Math.sin`/`Math.cos` of the paint path are abstract parameters. -/

/-- Per-session particle state, generated once at effect start. -/
structure Particle where
  baseX : ℚ
  baseY : ℚ
  amplitude : ℚ
  speed : ℚ
  radius : ℚ
  axis : ℚ
deriving DecidableEq

/-- `Math.round(120 * (settings.parallax + 0.5))`. -/
def particleCount (parallax : ℚ) : ℤ :=
  round (120 * (parallax + 1/2))

/-- The particle built at a given index:
`baseX/baseY` are fresh random draws, `amplitude = 0.05 + rnd*0.35`,
`speed = 0.6 + rnd*1.2`, `radius = 0.6 + rnd*1.9`, and
`axis = index % 2 === 0 ? 1 : -1`. -/
def mkParticle (rnd : Nat → Nat → ℚ) (index : Nat) : Particle :=
  { baseX := rnd index 0
    baseY := rnd index 1
    amplitude := 1/20 + rnd index 2 * (7/20)
    speed := 3/5 + rnd index 3 * (6/5)
    radius := 3/5 + rnd index 4 * (19/10)
    axis := if index % 2 = 0 then 1 else -1 }

/-- The particle array allocated once per render session:
`Array.from({length: particleCount}).map((_, index) => ...)`. -/
def mkParticles (rnd : Nat → Nat → ℚ) (parallax : ℚ) : List Particle :=
  (List.range (particleCount parallax).toNat).map (mkParticle rnd)

/- ### Camera-motion catalog (src/components/CinematicCanvas.tsx, lines 379-421) -/

/-- `getCameraMotionOffset`: a switch over the camera-motion id whose `orbit`
case doubles as the `default` branch, so every unknown id resolves to the
orbit offsets.  `s`/`c` stand for `Math.sin`/`Math.cos`. -/
def getCameraMotionOffset (s c : ℚ → ℚ) (motionId : String) (elapsed axis : ℚ) : ℚ × ℚ :=
  if motionId = "dolly" then
    (s (elapsed * (2/5)) * 420 * axis, c (elapsed * (1/4)) * 280)
  else if motionId = "drift" then
    (s (elapsed * (3/5) + axis) * 320, s (elapsed * (7/20) + axis) * 220)
  else if motionId = "pulse" then
    (s (elapsed * 3) * 65, c (elapsed * (3/2)) * 45)
  else
    (c (elapsed * (7/20)) * 380, s (elapsed * (3/10)) * 200)

/-- `getCameraSpeedMultiplier`: dolly 1.4, drift 0.9, pulse 1.8, orbit/default 1. -/
def getCameraSpeedMultiplier (motionId : String) : ℚ :=
  if motionId = "dolly" then 7/5
  else if motionId = "drift" then 9/10
  else if motionId = "pulse" then 9/5
  else 1

/-- Modelled from the spec: the mood catalog lives in
`src/lib/cinematicPresets`, which is not among the provided sources.  Per the
spec a mood is a display name, an ordered 3-stop palette, a light accent and a
haze tint. -/
structure Mood where
  name : String
  palette : List String
  light : String
  haze : String

/-- Modelled from the spec: `getMood` looks an id up in the fixed catalog and
substitutes the designated default entry when the id is absent, never failing. -/
def getMoodFrom (catalog : List (String × Mood)) (defaultMood : Mood) (id : String) : Mood :=
  (catalog.lookup id).getD defaultMood

/-- A concrete mood record used to instantiate the catalog theorems. -/
def sampleMood : Mood :=
  { name := "Neo noir"
    palette := ["#050510", "#1a1a2e", "#e50914"]
    light := "#ff4d6d"
    haze := "rgba(10, 10, 30, 0.4)" }

/-- The rendered position and breathing radius of one particle at a given
elapsed time (src/components/CinematicCanvas.tsx, lines 288-300): base
coordinates plus camera offset scaled by 0.001 plus index-staggered sinusoidal
jitter, radius `r * (1 + 0.4 * sin(elapsed * speed))`. -/
def renderedParticle (s c : ℚ → ℚ) (motionId : String) (w h elapsed : ℚ)
    (index : Nat) (p : Particle) : ℚ × ℚ × ℚ :=
  let motion := getCameraMotionOffset s c motionId elapsed p.axis
  let x := (p.baseX + s (elapsed * (17/100) + index) * (1/50) + motion.1 * (1/1000)) * w +
    s (elapsed * p.speed * (1/5) + index) * w * (1/50)
  let y := (p.baseY + c (elapsed * (3/25) + index) * (1/50) + motion.2 * (1/1000) +
    s (elapsed * p.speed * (1/10) + index) * (1/100)) * h
  let radius := p.radius * (1 + s (elapsed * p.speed) * (2/5))
  (x, y, radius)

/-- One `paintParticles` pass: `particles.forEach((particle, index) => ...)`
reads every particle and produces a rendered position; it writes none of the
stored fields. -/
def paintParticlesFrame (s c : ℚ → ℚ) (motionId : String) (w h elapsed : ℚ)
    (ps : List Particle) : List (ℚ × ℚ × ℚ) :=
  ps.mapIdx (fun index p => renderedParticle s c motionId w h elapsed index p)

/-- The per-session render loop restricted to the particle state: each
`renderFrame` invocation paints the frame from the current particle state and
passes that state unchanged to the next tick (the closure over `particles` in
`renderFrame` is never reassigned and `drawFrame` never writes it). -/
def sessionFrames (s c : ℚ → ℚ) (motionId : String) (w h : ℚ)
    (ps : List Particle) : List ℚ → List Particle × List (List (ℚ × ℚ × ℚ))
  | [] => (ps, [])
  | t :: ts =>
    let frame := paintParticlesFrame s c motionId w h t ps
    let rest := sessionFrames s c motionId w h ps ts
    (rest.1, frame :: rest.2)

lemma sessionFrames_fst (s c : ℚ → ℚ) (motionId : String) (w h : ℚ)
    (ps : List Particle) (ts : List ℚ) :
    (sessionFrames s c motionId w h ps ts).1 = ps := by
  induction ts with
  | nil => rfl
  | cons t ts ih => simp [sessionFrames, ih]

lemma sessionFrames_len (s c : ℚ → ℚ) (motionId : String) (w h : ℚ)
    (ps : List Particle) (ts : List ℚ) :
    (sessionFrames s c motionId w h ps ts).2.length = ts.length := by
  induction ts with
  | nil => rfl
  | cons t ts ih => simp [sessionFrames, ih]

/-- Claim C4: the particle array has exactly `round(120 * (parallax + 0.5))`
entries (120 of them at parallax 0.5), is created once at session start, and
is passed through every painted frame unchanged — after any sequence of frames
the stored fields are those produced at creation, with one frame output per
tick. -/
theorem particles_generation_spec (rnd : Nat → Nat → ℚ) (parallax : ℚ)
    (s c : ℚ → ℚ) (motionId : String) (w h : ℚ) (ts : List ℚ) :
    particleCount parallax = round (120 * (parallax + 1/2)) ∧
    (mkParticles rnd parallax).length = (particleCount parallax).toNat ∧
    particleCount (1/2) = 120 ∧ particleCount 0 = 60 ∧ particleCount 1 = 180 ∧
    (sessionFrames s c motionId w h (mkParticles rnd parallax) ts).1 =
      mkParticles rnd parallax ∧
    (sessionFrames s c motionId w h (mkParticles rnd parallax) ts).2.length =
      ts.length := by
  refine ⟨rfl, by simp [mkParticles], ?_, ?_, ?_,
    sessionFrames_fst .., sessionFrames_len ..⟩ <;>
    norm_num [particleCount, round_eq]

/-- Claim C10: in the generated particle array the entry at index i is
`mkParticle rnd i`, whose axis is +1 at even i and -1 at odd i, hence always
in {-1, +1}; the axis is independent of the random stream while every other
stored field does depend on it. -/
theorem particle_axis_alternates (rnd rndOther : Nat → Nat → ℚ) (parallax : ℚ)
    (i : Nat) (hi : i < (mkParticles rnd parallax).length) :
    (mkParticles rnd parallax).get ⟨i, hi⟩ = mkParticle rnd i ∧
    (mkParticle rnd i).axis = (if i % 2 = 0 then 1 else -1) ∧
    ((mkParticle rnd i).axis = 1 ∨ (mkParticle rnd i).axis = -1) ∧
    (mkParticle rnd i).axis = (mkParticle rndOther i).axis ∧
    (∃ g gOther : Nat → Nat → ℚ,
      (mkParticle g i).baseX ≠ (mkParticle gOther i).baseX ∧
      (mkParticle g i).baseY ≠ (mkParticle gOther i).baseY ∧
      (mkParticle g i).amplitude ≠ (mkParticle gOther i).amplitude ∧
      (mkParticle g i).speed ≠ (mkParticle gOther i).speed ∧
      (mkParticle g i).radius ≠ (mkParticle gOther i).radius) := by
  refine ⟨?_, rfl, ?_, rfl, ?_⟩
  · simp [mkParticles, mkParticle]
  · by_cases h : i % 2 = 0 <;> simp [mkParticle, h]
  · exact ⟨fun _ _ => 0, fun _ _ => 1, by norm_num [mkParticle], by norm_num [mkParticle],
      by norm_num [mkParticle], by norm_num [mkParticle], by norm_num [mkParticle]⟩

/-- Witness for C10 at parallax 1/2 (a 120-particle array) and indices 0 and 1. -/
theorem particle_axis_alternates_w :
    (mkParticle (fun _ _ => (0 : ℚ)) 0).axis = 1 ∧
    (mkParticle (fun _ _ => (0 : ℚ)) 1).axis = -1 := by
  have hcount : particleCount (1/2) = 120 := by
    norm_num [particleCount, round_eq]
  have hlen : (mkParticles (fun _ _ => (0 : ℚ)) (1/2)).length = 120 := by
    unfold mkParticles
    rw [List.length_map, List.length_range, hcount]
    rfl
  have h0 := particle_axis_alternates (fun _ _ => (0 : ℚ)) (fun _ _ => (0 : ℚ)) (1/2) 0
    (by rw [hlen]; norm_num)
  have h1 := particle_axis_alternates (fun _ _ => (0 : ℚ)) (fun _ _ => (0 : ℚ)) (1/2) 1
    (by rw [hlen]; norm_num)
  exact ⟨h0.2.1.trans (by norm_num), h1.2.1.trans (by norm_num)⟩

/-- Claim C6: catalog lookups are total.  A camera-motion id outside the
catalog resolves to the `orbit` default for both the offset function and the
speed multiplier (the `orbit` case doubles as the switch default); the known
ids resolve to their own entries; and the spec-modelled mood lookup returns
the catalog entry when present and the designated default otherwise, never an
error. -/
theorem catalog_lookup_total (s c : ℚ → ℚ) (id : String) (e a : ℚ)
    (catalog : List (String × Mood)) (dm : Mood) :
    (∀ m, catalog.lookup id = some m → getMoodFrom catalog dm id = m) ∧
    (catalog.lookup id = none → getMoodFrom catalog dm id = dm) ∧
    (id ∉ (["dolly", "drift", "pulse"] : List String) →
      getCameraMotionOffset s c id e a = getCameraMotionOffset s c "orbit" e a) ∧
    (id ∉ (["dolly", "drift", "pulse", "orbit"] : List String) →
      getCameraSpeedMultiplier id = getCameraSpeedMultiplier "orbit") ∧
    getCameraSpeedMultiplier "dolly" = 7/5 ∧
    getCameraSpeedMultiplier "drift" = 9/10 ∧
    getCameraSpeedMultiplier "pulse" = 9/5 ∧
    getCameraSpeedMultiplier "orbit" = 1 := by
  refine ⟨?_, ?_, ?_, ?_,
    by unfold getCameraSpeedMultiplier; rw [if_pos rfl],
    by unfold getCameraSpeedMultiplier; rw [if_neg (by decide), if_pos rfl],
    by unfold getCameraSpeedMultiplier; rw [if_neg (by decide), if_neg (by decide), if_pos rfl],
    by unfold getCameraSpeedMultiplier;
       rw [if_neg (by decide), if_neg (by decide), if_neg (by decide)]⟩
  · intro m hm
    simp [getMoodFrom, hm]
  · intro hm
    simp [getMoodFrom, hm]
  · intro hmem
    simp only [List.mem_cons, List.not_mem_nil, or_false, not_or] at hmem
    obtain ⟨h1, h2, h3⟩ := hmem
    unfold getCameraMotionOffset
    rw [if_neg h1, if_neg h2, if_neg h3,
      if_neg (by decide : ¬ ("orbit" = "dolly")),
      if_neg (by decide : ¬ ("orbit" = "drift")),
      if_neg (by decide : ¬ ("orbit" = "pulse"))]
  · intro hmem
    simp only [List.mem_cons, List.not_mem_nil, or_false, not_or] at hmem
    obtain ⟨h1, h2, h3, _⟩ := hmem
    unfold getCameraSpeedMultiplier
    rw [if_neg h1, if_neg h2, if_neg h3,
      if_neg (by decide : ¬ ("orbit" = "dolly")),
      if_neg (by decide : ¬ ("orbit" = "drift")),
      if_neg (by decide : ¬ ("orbit" = "pulse"))]

/-- Witness for C6: the unknown id "zoom" resolves to the default mood on an
empty catalog and to the orbit speed multiplier. -/
theorem catalog_lookup_total_w :
    getMoodFrom [] sampleMood "zoom" = sampleMood ∧
    getCameraSpeedMultiplier "zoom" = getCameraSpeedMultiplier "orbit" := by
  have h := catalog_lookup_total (fun _ => 0) (fun _ => 0) "zoom" 0 0 [] sampleMood
  exact ⟨h.2.1 rfl, h.2.2.2.1 (by decide)⟩

/- ### Background layer (src/components/CinematicCanvas.tsx, lines 164-198 and 363-368)

`paintBackground` builds a vertical gradient with color stops at offsets 0,
0.45 and 1 over the three palette entries; the palette entries at indices 0
and 1 are pulsed via `applyPulse` with amplitudes 0.04 and 0.08, the entry at
index 2 is used unmodified.  The haze band is
`ctx.fillRect(0, height * 0.65, width, height * 0.35)`. -/

/-- Symbolic description of one gradient color stop: either a palette entry
pulsed by `applyPulse(palette[i], elapsed * rate, amplitude)` or a plain
palette entry. -/
inductive GradientStopColor
  | pulsed (paletteIndex : Nat) (rate amplitude : ℚ)
  | plain (paletteIndex : Nat)
deriving DecidableEq

/-- The three `addColorStop` calls of `paintBackground`, as (offset, color). -/
def backgroundGradientStops : List (ℚ × GradientStopColor) :=
  [(0, .pulsed 0 (1/10) (1/25)),
   (9/20, .pulsed 1 (3/25) (2/25)),
   (1, .plain 2)]

/-- The haze band rectangle `(0, height * 0.65, width, height * 0.35)`. -/
def hazeRect (width height : ℚ) : RectQ :=
  ⟨0, height * (13/20), width, height * (7/20)⟩

/-- The brightness multiplier of `applyPulse`:
`1 + Math.sin(time * Math.PI * 2) * amplitude`, with the sine value abstracted
as `sinValue`. -/
def pulseScale (sinValue amplitude : ℚ) : ℚ := 1 + sinValue * amplitude

/-- One pulsed color channel of `applyPulse`: the channel scaled by the pulse
multiplier, rounded and clamped to [0, 255]. -/
def pulsedChannel (sinValue amplitude channel : ℚ) : ℤ :=
  min 255 (max 0 (round (channel * pulseScale sinValue amplitude)))

/-- Claim C9: the background gradient pulses exactly the palette stops at
indices 0 and 1, with sinusoid amplitudes 0.04 and 0.08 (each within the 4-8%
band) while the index-2 stop stays unpulsed; the pulse multiplier stays within
[1 - amplitude, 1 + amplitude] for any sine value in [-1, 1]; and the flat
haze band spans the full width from 65% of the height down to the bottom edge,
i.e. exactly the bottom 35% of the frame. -/
theorem background_pulse_haze_spec (w h sv : ℚ) :
    (hazeRect w h).x = 0 ∧ (hazeRect w h).w = w ∧
    (hazeRect w h).y = h * (13/20) ∧ (hazeRect w h).h = (7/20) * h ∧
    (hazeRect w h).y + (hazeRect w h).h = h ∧
    (∀ off idx r amp, (off, GradientStopColor.pulsed idx r amp) ∈ backgroundGradientStops →
      ((idx = 0 ∧ amp = 1/25) ∨ (idx = 1 ∧ amp = 2/25)) ∧ 1/25 ≤ amp ∧ amp ≤ 2/25) ∧
    ((1, GradientStopColor.plain 2) ∈ backgroundGradientStops) ∧
    (|sv| ≤ 1 → ∀ amp : ℚ, 0 ≤ amp →
      1 - amp ≤ pulseScale sv amp ∧ pulseScale sv amp ≤ 1 + amp) := by
  refine ⟨rfl, rfl, rfl, by unfold hazeRect; ring_nf, by unfold hazeRect; ring, ?_, ?_, ?_⟩
  · intro off idx r amp hmem
    simp [backgroundGradientStops] at hmem
    rcases hmem with ⟨_, hidx, _, hamp⟩ | ⟨_, hidx, _, hamp⟩ <;>
      subst hidx <;> subst hamp <;> norm_num
  · simp [backgroundGradientStops]
  · intro hsv amp hamp
    have habs := abs_le.mp hsv
    unfold pulseScale
    constructor <;> nlinarith [habs.1, habs.2]

/-- Witness for C9 at a 1600x900 frame, sine value 1, amplitude 1/25. -/
theorem background_pulse_haze_spec_w :
    (hazeRect 1600 900).y + (hazeRect 1600 900).h = 900 ∧
    pulseScale 1 (1/25) ≤ 1 + 1/25 := by
  have h := background_pulse_haze_spec 1600 900 1
  exact ⟨h.2.2.2.2.1, (h.2.2.2.2.2.2.2 (by norm_num) (1/25) (by norm_num)).2⟩

/- ### Capture session control flow (src/unnamed/part_001, lines 58-148)

`handleGenerate` is modelled as the ordered list of observable resource events
of one invocation, with the outcome of each external interaction supplied as
an environment: whether `canvas.captureStream` returned a stream, which track
ids that stream carries, whether `new MediaRecorder(...)` succeeded, and
whether the recording ended in a sink error.  The model covers a single
invocation with both mutable refs (`mediaRecorderRef`, `progressIntervalRef`)
initially empty, exactly as on the first generation. -/

/-- Observable resource events of `handleGenerate`, in program order. -/
inductive Ev
  | revokePrev (url : Nat)
  | streamCaptured
  | recorderCreated
  | recorderStarted
  | progressTimerStarted
  | stopRequested
  | artifactCreated (url : Nat)
  | errorCaught
  | progressTimerCleared
  | trackStopped (trackId : Nat)
deriving DecidableEq

/-- Environment of one `handleGenerate` invocation. -/
structure CaptureEnv where
  prevUrl : Option Nat
  streamOk : Bool
  streamTracks : List Nat
  recorderOk : Bool
  sinkError : Bool
  newUrl : Nat

/-- Events of lines 77-80: a still-live previous artifact URL is revoked
before anything else happens. -/
def preEvents (prevUrl : Option Nat) : List Ev :=
  match prevUrl with
  | some u => [.revokePrev u]
  | none => []

/-- Whether `mediaRecorderRef.current` was assigned (line 91), i.e. the stream
was captured and the `MediaRecorder` constructor did not throw. -/
def recorderAssigned (env : CaptureEnv) : Bool :=
  env.streamOk && env.recorderOk

/-- Events of the `try` body (lines 82-134) together with the `catch` handler:
a null stream throws before the recorder exists; a throwing constructor leaves
`mediaRecorderRef` untouched; otherwise the recorder starts, the progress
interval is installed, the stop deadline fires, and the stop promise either
resolves into an artifact or rejects with the sink error. -/
def bodyEvents (env : CaptureEnv) : List Ev :=
  if env.streamOk then
    if env.recorderOk then
      [.streamCaptured, .recorderCreated, .recorderStarted,
       .progressTimerStarted, .stopRequested] ++
        (if env.sinkError then [.errorCaught] else [.artifactCreated env.newUrl])
    else [.streamCaptured, .errorCaught]
  else [.errorCaught]

/-- Events of the `finally` block (lines 141-147): the interval is cleared when
it was installed, then the tracks of the stream held by
`mediaRecorderRef.current` — and only those — are stopped. -/
def cleanupEvents (env : CaptureEnv) : List Ev :=
  (if recorderAssigned env then [.progressTimerCleared] else []) ++
    (if recorderAssigned env then env.streamTracks.map Ev.trackStopped else [])

/-- The full ordered event list of one `handleGenerate` invocation. -/
def handleGenerateEvents (env : CaptureEnv) : List Ev :=
  preEvents env.prevUrl ++ bodyEvents env ++ cleanupEvents env

/-- Recognises artifact-creation events. -/
def isArtifactEv : Ev → Bool
  | .artifactCreated _ => true
  | _ => false

lemma countP_artifact_trackStopped (l : List Nat) :
    List.countP (isArtifactEv ∘ Ev.trackStopped) l = 0 := by
  induction l with
  | nil => rfl
  | cons t l ih => simp [List.countP_cons, isArtifactEv, Function.comp, ih]

/-- Claim C7 (code bug): with a live captured stream carrying track 7, a
`MediaRecorder` constructor that throws (e.g. the `video/webm;codecs=vp9` mime
type being unsupported) exits `handleGenerate` without stopping the captured
stream's track — `mediaRecorderRef.current` is still null in the `finally`
block, so `track.stop()` is never reached — whereas the same track is stopped
on both the successful and the sink-error exit paths. -/
theorem capture_cleanup_missed_tracks :
    Ev.trackStopped 7 ∉
      handleGenerateEvents ⟨none, true, [7], false, false, 0⟩ ∧
    Ev.trackStopped 7 ∈
      handleGenerateEvents ⟨none, true, [7], true, false, 0⟩ ∧
    Ev.trackStopped 7 ∈
      handleGenerateEvents ⟨none, true, [7], true, true, 0⟩ ∧
    Ev.progressTimerCleared ∈
      handleGenerateEvents ⟨none, true, [7], true, true, 0⟩ := by
  refine ⟨?_, ?_, ?_, ?_⟩ <;> decide

/-- Claim C8: at most one artifact is ever created per invocation, and when a
previous artifact URL is still live its revocation is the very first event —
in particular it precedes the recorder start and the new artifact's creation. -/
theorem prev_artifact_revoked_first (env : CaptureEnv) :
    (handleGenerateEvents env).countP isArtifactEv ≤ 1 ∧
    (∀ u, env.prevUrl = some u →
      ∃ rest, handleGenerateEvents env = Ev.revokePrev u :: rest ∧
        Ev.revokePrev u ∉ rest) := by
  obtain ⟨prev, streamOk, tracks, recOk, sinkErr, newUrl⟩ := env
  constructor
  · rcases prev with _ | u <;>
      rcases streamOk <;> rcases recOk <;> rcases sinkErr <;>
      simp [handleGenerateEvents, preEvents, bodyEvents, cleanupEvents,
        recorderAssigned, List.countP_append, List.countP_cons, isArtifactEv,
        countP_artifact_trackStopped]
  · intro u hu
    subst hu
    refine ⟨bodyEvents _ ++ cleanupEvents _, rfl, ?_⟩
    rcases streamOk <;> rcases recOk <;> rcases sinkErr <;>
      simp [bodyEvents, cleanupEvents, recorderAssigned, List.mem_append,
        List.mem_map]

/-- Witness for C8: a second generation with artifact URL 3 still live revokes
URL 3 first and creates at most one new artifact. -/
theorem prev_artifact_revoked_first_w :
    (handleGenerateEvents ⟨some 3, true, [7], true, false, 4⟩).countP
      isArtifactEv ≤ 1 ∧
    ∃ rest, handleGenerateEvents ⟨some 3, true, [7], true, false, 4⟩ =
      Ev.revokePrev 3 :: rest := by
  have h := prev_artifact_revoked_first ⟨some 3, true, [7], true, false, 4⟩
  obtain ⟨rest, hrest, -⟩ := h.2 3 rfl
  exact ⟨h.1, rest, hrest⟩
